import Mathlib

/-!
Verification of the Mizan agentic decision pipeline (deterministic core).

Shallow embedding conventions:
* Python floats are modelled as exact rationals (`ℚ`).  The code's
  `round_float(x, d)` calls are fixed-precision display rounding applied to
  already-finalized values; they are omitted from the model (no decision —
  pass/fail, band, verdict, confidence — is computed from a rounded value in
  the source).
* `None`-able Python values are `Option _`; a Python dict field that may be
  absent is an `Option` field.  Python truthiness of such a field is
  `Option.getD false` for booleans.
* LLM "agent overlay" calls (`_run_valuation_supervisor`, `_run_sizing_agent`,
  gate 1/3/4 LLM classification) are advisory string producers; they never
  feed the deterministic outputs modelled here and are omitted.
* Interpolated display strings (f-strings with numeric formatting) are
  modelled as fixed placeholder strings; no verified property concerns them.
-/

namespace Mizan

/-- Python `str.upper()` (ASCII data only in this pipeline).  Implemented over
the character list — extensionally equal to `String.toUpper`, but written so
the kernel can evaluate it on literals. -/
def str_to_upper (s : String) : String := String.mk (s.data.map Char.toUpper)

/-- Python `str.lower()`; see `str_to_upper`. -/
def str_to_lower (s : String) : String := String.mk (s.data.map Char.toLower)

/-- Python `str.startswith`; list-based for the same reason. -/
def str_starts_with (p s : String) : Bool := List.isPrefixOf p.data s.data

/-- Diagnostics block attached to every gate envelope
(`response_utils.build_diagnostics`). -/
structure Diagnostics where
  inputs_used : List String
  missing_inputs : List String
  binding_constraint : Option String
  deriving DecidableEq, Repr

/-- Canonical response envelope (`response_utils`).  The Python envelope is a
dict; `data := none` models the empty `data = {}` dict of an ERROR envelope. -/
structure Envelope (α : Type) where
  status : String
  gate : String
  data : Option α
  confidence : ℤ
  one_liner : String
  errorCode : Option String
  diagnostics : Diagnostics
  deriving DecidableEq, Repr

/-- Source: `response_utils.ok_response`. -/
def ok_response {α : Type} (gate : String) (data : α) (inputs_used : List String)
    (confidence : ℤ) (one_liner : String) (binding_constraint : Option String)
    (missing_inputs : List String) : Envelope α :=
  { status := "OK", gate := gate, data := some data,
    confidence := max 0 (min 100 confidence), one_liner := one_liner,
    errorCode := none,
    diagnostics := ⟨inputs_used, missing_inputs, binding_constraint⟩ }

/-- Source: `response_utils.error_response` (carries empty data and
confidence 0). -/
def error_response (α : Type) (gate : String) (code : String) (message : String)
    (inputs_used : List String) (missing_inputs : List String)
    (binding_constraint : Option String) : Envelope α :=
  { status := "ERROR", gate := gate, data := none, confidence := 0,
    one_liner := message, errorCode := some code,
    diagnostics := ⟨inputs_used, missing_inputs, binding_constraint⟩ }

/-- Source: `response_utils.skipped_response`. -/
def skipped_response {α : Type} (gate : String) (data : α)
    (inputs_used : List String) (reason : String) (missing_inputs : List String)
    (binding_constraint : Option String) : Envelope α :=
  { status := "SKIPPED", gate := gate, data := some data, confidence := 0,
    one_liner := reason, errorCode := none,
    diagnostics := ⟨inputs_used, missing_inputs, binding_constraint⟩ }

/-- Source: `response_utils.missing_required_fields`.  The Python argument is a
heterogeneous dict; here each value is represented only by its presence
(`Option Unit`), which is all the function inspects (`value is None`). -/
def missing_required_fields (values : List (String × Option Unit)) : List String :=
  (values.filter fun kv => kv.2.isNone).map Prod.fst

/-! Gate 2 — Valuation (`gates/gate2_valuation.py`). -/

/-- Environment-derived configuration constants of gate 2
(`REQUIRED_MARGIN_OF_SAFETY`, `VALUATION_MULTIPLE`), modelled as an explicit
immutable configuration record; the defaults are `0.30` and `10`. -/
structure ValuationConfig where
  REQUIRED_MARGIN : ℚ
  VALUATION_MULTIPLE : ℚ
  deriving DecidableEq, Repr

/-- Default configuration (env vars unset). -/
def defaultValuationConfig : ValuationConfig := ⟨0.30, 10⟩

/-- Source: `gate2_valuation._valuation_band`. -/
def valuation_band (margin_of_safety : ℚ) : String :=
  if margin_of_safety ≥ 0.50 then "DEEP_VALUE"
  else if margin_of_safety ≥ 0 then "FAIR"
  else "EXPENSIVE"

/-- Source: `gate2_valuation.valuation_policy`.
Returns `(multiple, required_margin)`. -/
def valuation_policy (cfg : ValuationConfig) (net_debt : ℚ) : ℚ × ℚ :=
  let multiple := cfg.VALUATION_MULTIPLE
  let required_margin := cfg.REQUIRED_MARGIN
  if net_debt ≤ 0 then (multiple + 2.0, max 0.20 (required_margin - 0.05))
  else (multiple, required_margin)

/-- Fields of the gate-2 `data` dict that the deterministic core sets
(display/units/supervisor sub-dicts omitted; `multiple_used` is
`valuation_anchor.multiple_used`). -/
structure ValuationData where
  owner_earnings : ℚ
  owner_earnings_source_used : String
  net_debt : ℚ
  effective_net_debt : ℚ
  intrinsic_equity : ℚ
  intrinsic_price : ℚ
  market_price : ℚ
  margin_of_safety : Option ℚ
  required_margin : ℚ
  multiple_used : ℚ
  valuation_band : String
  pass : Bool
  passes : Bool
  deriving DecidableEq, Repr

/-- Gate 2 name constant. -/
def gate2Name : String := "Gate 2 – Valuation"

/-- The `inputs_used` list of gate 2. -/
def gate2InputsUsed : List String :=
  ["market_price", "net_income", "free_cashflow", "total_debt", "cash",
   "shares_outstanding", "REQUIRED_MARGIN_OF_SAFETY", "VALUATION_MULTIPLE",
   "valuation_policy(net_debt)"]

/-- Source: `gate2_valuation.calculate_valuation`.  The happy-path arithmetic
mirrors lines 200–238 of the source; the `try/except` wrapper is not modelled
(no modelled operation raises). -/
def calculate_valuation (cfg : ValuationConfig)
    (market_price net_income free_cashflow total_debt cash shares_outstanding :
      Option ℚ) : Envelope ValuationData :=
  let missing := missing_required_fields
    [("market_price", market_price.map fun _ => ()),
     ("net_income", net_income.map fun _ => ()),
     ("total_debt", total_debt.map fun _ => ()),
     ("cash", cash.map fun _ => ()),
     ("shares_outstanding", shares_outstanding.map fun _ => ())]
  if missing ≠ [] then
    error_response ValuationData gate2Name "VALUATION_MISSING_INPUTS"
      ("Missing required inputs: " ++ String.intercalate ", " missing)
      gate2InputsUsed missing (some "DATA_AVAILABILITY")
  else
    match market_price, net_income, total_debt, cash, shares_outstanding with
    | some mp, some ni, some td, some ch, some sh =>
      if sh ≤ 0 then
        error_response ValuationData gate2Name "VALUATION_INVALID_SHARES"
          "shares_outstanding must be > 0" gate2InputsUsed []
          (some "DATA_AVAILABILITY")
      else
        let oe_pair : ℚ × String :=
          match free_cashflow with
          | none => (ni, "NET_INCOME")
          | some fcf =>
            (min ni fcf, if ni ≤ fcf then "NET_INCOME" else "FREE_CASH_FLOW")
        let owner_earnings := oe_pair.1
        let owner_earnings_source := oe_pair.2
        let net_debt := td - ch
        let mr := valuation_policy cfg net_debt
        let multiple_used := mr.1
        let required_margin_used := mr.2
        let effective_net_debt := max 0 net_debt
        let intrinsic_equity := owner_earnings * multiple_used - effective_net_debt
        let intrinsic_price := intrinsic_equity / sh
        if intrinsic_price ≤ 0 then
          let data : ValuationData :=
            { owner_earnings := owner_earnings,
              owner_earnings_source_used := owner_earnings_source,
              net_debt := net_debt, effective_net_debt := effective_net_debt,
              intrinsic_equity := intrinsic_equity,
              intrinsic_price := intrinsic_price, market_price := mp,
              margin_of_safety := none,
              required_margin := required_margin_used,
              multiple_used := multiple_used, valuation_band := "IMPAIRED",
              pass := false, passes := false }
          ok_response gate2Name data gate2InputsUsed 90
            "FAIL — Intrinsic value is non-positive (IMPAIRED)"
            (some "VALUATION") []
        else
          let margin_of_safety := (intrinsic_price - mp) / intrinsic_price
          let passes : Bool := decide (margin_of_safety ≥ required_margin_used)
          let vband := valuation_band margin_of_safety
          let data : ValuationData :=
            { owner_earnings := owner_earnings,
              owner_earnings_source_used := owner_earnings_source,
              net_debt := net_debt, effective_net_debt := effective_net_debt,
              intrinsic_equity := intrinsic_equity,
              intrinsic_price := intrinsic_price, market_price := mp,
              margin_of_safety := some margin_of_safety,
              required_margin := required_margin_used,
              multiple_used := multiple_used, valuation_band := vband,
              pass := passes, passes := passes }
          ok_response gate2Name data gate2InputsUsed 85
            (if passes then "PASS" else "FAIL")
            (if vband = "IMPAIRED" ∨ vband = "EXPENSIVE" then some "VALUATION"
             else none) []
    | _, _, _, _, _ =>
      -- Unreachable: the `missing` guard above already excludes absent inputs.
      error_response ValuationData gate2Name "VALUATION_MISSING_INPUTS"
        "Missing required inputs" gate2InputsUsed missing
        (some "DATA_AVAILABILITY")

/-- The intrinsic price as computed inside `calculate_valuation`
(owner earnings × multiple − effective net debt, divided by shares); used to
phrase claims about the sign of the intrinsic price. -/
def intrinsic_price_calc (cfg : ValuationConfig) (net_income : ℚ)
    (free_cashflow : Option ℚ) (total_debt cash shares_outstanding : ℚ) : ℚ :=
  let owner_earnings :=
    match free_cashflow with
    | none => net_income
    | some fcf => min net_income fcf
  let net_debt := total_debt - cash
  let mr := valuation_policy cfg net_debt
  (owner_earnings * mr.1 - max 0 net_debt) / shares_outstanding

/-! Gate 5 — Position Sizing (`gates/gate5_position_sizing.py`). -/

/-- Gate 5 name constant. -/
def gate5Name : String := "Gate 5 – Position Sizing"

/-- Source: `gate5_position_sizing.VALID_CREDIT_STRESS`. -/
def VALID_CREDIT_STRESS : List String := ["LOW", "MEDIUM", "HIGH"]

/-- Source: `gate5_position_sizing._volatility_factor`. -/
def volatility_factor (volatility : ℚ) : ℚ :=
  if volatility ≤ 0.20 then 1.00
  else if volatility ≤ 0.35 then 0.85
  else if volatility ≤ 0.50 then 0.70
  else 0.55

/-- Source: `gate5_position_sizing._drawdown_factor`. -/
def drawdown_factor (max_drawdown : ℚ) : ℚ :=
  if max_drawdown ≤ 0.15 then 1.00
  else if max_drawdown ≤ 0.30 then 0.85
  else if max_drawdown ≤ 0.45 then 0.70
  else 0.55

/-- Source: `gate5_position_sizing._correlation_factor`. -/
def correlation_factor (correlation_index : ℚ) : ℚ :=
  if correlation_index ≤ 0.30 then 1.00
  else if correlation_index ≤ 0.60 then 0.85
  else if correlation_index ≤ 0.80 then 0.70
  else 0.55

/-- Source: `gate5_position_sizing._macro_factor`.  The Python credit-factor
dict lookup raises on any key outside {LOW, MEDIUM, HIGH}; the function is
only ever applied to a validated credit-stress value, so the `HIGH` arm here
doubles as the (unreachable) default. -/
def macro_factor (interest_rate : ℚ) (credit_stress : String) : ℚ :=
  let rate_factor : ℚ :=
    if interest_rate ≤ 0.03 then 1.00
    else if interest_rate ≤ 0.05 then 0.90
    else if interest_rate ≤ 0.07 then 0.80
    else 0.70
  let credit_factor : ℚ :=
    if credit_stress = "LOW" then 1.00
    else if credit_stress = "MEDIUM" then 0.85
    else 0.70
  min rate_factor credit_factor

/-- The four sizing factors, keyed as in the Python `factors` dict. -/
structure SizingFactors where
  VOLATILITY : ℚ
  DRAWDOWN : ℚ
  CORRELATION : ℚ
  MACRO : ℚ
  deriving DecidableEq, Repr

/-- Minimum of the four factor values (`min(factors.values())`). -/
def factorsMin (factors : SizingFactors) : ℚ :=
  min factors.VOLATILITY (min factors.DRAWDOWN
    (min factors.CORRELATION factors.MACRO))

/-- Source: `gate5_position_sizing._binding_constraint` — first key in the
fixed precedence list whose factor equals the minimum. -/
def binding_constraint (factors : SizingFactors) : String :=
  let min_factor := factorsMin factors
  if factors.VOLATILITY = min_factor then "VOLATILITY"
  else if factors.DRAWDOWN = min_factor then "DRAWDOWN"
  else if factors.CORRELATION = min_factor then "CORRELATION"
  else "MACRO"

/-- Fields of the gate-5 `data` dict used by the claims.  The skip-path data
dicts carry `status`, `maximum_position_size`, `confidence`, `reason`; the
ok-path data carries the size, binding constraint, normalized credit stress
and the factor dict (echoed raw inputs / units / display omitted). -/
structure SizingData where
  status : Option String
  maximum_position_size : Option ℚ
  confidence : Option ℤ
  reason : Option String
  binding_constraint : Option String
  credit_stress : Option String
  factors : Option SizingFactors
  deriving DecidableEq, Repr

/-- The `inputs_used` list of gate 5. -/
def gate5InputsUsed : List String :=
  ["volatility", "max_drawdown", "interest_rate", "credit_stress",
   "correlation_index"]

/-- Helper building the gate-5 skip data dict (each Python skip branch builds
this same shape inline). -/
def sizingSkipData (reason : String) : SizingData :=
  { status := some "SKIPPED", maximum_position_size := none,
    confidence := some 0, reason := some reason, binding_constraint := none,
    credit_stress := none, factors := none }

/-- Source: `gate5_position_sizing.calculate_position_size`.  The `try/except`
wrapper is not modelled (no modelled operation raises). -/
def calculate_position_size (volatility max_drawdown interest_rate : Option ℚ)
    (credit_stress : Option String) (correlation_index : Option ℚ)
    (upstream_reject : Bool) : Envelope SizingData :=
  if upstream_reject then
    skipped_response gate5Name
      (sizingSkipData "Valuation gate failed — position sizing not applicable.")
      gate5InputsUsed "Valuation gate failed — position sizing not applicable."
      [] (some "NOT_APPLICABLE")
  else
    let missing := missing_required_fields
      [("volatility", volatility.map fun _ => ()),
       ("max_drawdown", max_drawdown.map fun _ => ()),
       ("interest_rate", interest_rate.map fun _ => ()),
       ("credit_stress", credit_stress.map fun _ => ()),
       ("correlation_index", correlation_index.map fun _ => ())]
    if missing ≠ [] then
      skipped_response gate5Name
        (sizingSkipData ("Position sizing skipped — missing required inputs: "
          ++ String.intercalate ", " missing ++ "."))
        gate5InputsUsed
        ("Position sizing skipped — missing required inputs: "
          ++ String.intercalate ", " missing ++ ".")
        missing (some "DATA_AVAILABILITY")
    else
      match volatility, max_drawdown, interest_rate, credit_stress,
        correlation_index with
      | some vol, some dd, some rate, some cs, some corr =>
        let normalized_credit_stress := str_to_upper cs
        if normalized_credit_stress ∉ VALID_CREDIT_STRESS then
          skipped_response gate5Name
            (sizingSkipData "Position sizing skipped — invalid credit_stress")
            gate5InputsUsed "Position sizing skipped — invalid credit_stress"
            [] (some "DATA_AVAILABILITY")
        else if rate > 1.0 then
          skipped_response gate5Name
            (sizingSkipData "Position sizing skipped — interest_rate must be decimal (e.g., 0.0364 for 3.64%).")
            gate5InputsUsed
            "Position sizing skipped — interest_rate must be decimal (e.g., 0.0364 for 3.64%)."
            [] (some "DATA_AVAILABILITY")
        else
          let factors : SizingFactors :=
            { VOLATILITY := volatility_factor vol,
              DRAWDOWN := drawdown_factor dd,
              CORRELATION := correlation_factor corr,
              MACRO := macro_factor rate normalized_credit_stress }
          -- base_size = 10.0, then multiplied by each factor in dict order.
          let position_size :=
            10.0 * factors.VOLATILITY * factors.DRAWDOWN * factors.CORRELATION
              * factors.MACRO
          let position_size := max 1.0 (min position_size 10.0)
          let bc := binding_constraint factors
          let data : SizingData :=
            { status := none, maximum_position_size := some position_size,
              confidence := none, reason := none,
              binding_constraint := some bc,
              credit_stress := some normalized_credit_stress,
              factors := some factors }
          ok_response gate5Name data gate5InputsUsed 75 "" none []
      | _, _, _, _, _ =>
        -- Unreachable: the `missing` guard above already excludes absent inputs.
        skipped_response gate5Name
          (sizingSkipData "Position sizing skipped — missing required inputs.")
          gate5InputsUsed "Position sizing skipped — missing required inputs."
          missing (some "DATA_AVAILABILITY")

/-! Gate 6 — Final Verdict (`gates/gate6_final_verdict.py`) and the shared
envelope-reading helpers. -/

/-- Open-world model of a gate `data` dict: every key the verdict gate or the
pipeline confidence reads, each possibly absent. -/
structure GateData where
  pass : Option Bool
  passes : Option Bool
  margin_of_safety : Option ℚ
  valuation_band : Option String
  one_liner : Option String
  classification : Option String
  risk_level : Option String
  reason : Option String
  status : Option String
  maximum_position_size : Option ℚ
  deriving DecidableEq, Repr

/-- The empty `data` dict. -/
def emptyGateData : GateData :=
  ⟨none, none, none, none, none, none, none, none, none, none⟩

/-- Source: `gate6_final_verdict._extract_gate_parts`.  Typed inputs are
always full envelopes whose `data` is a dict (possibly empty), so the
raw-payload fallback branch of the Python is vacuous here. -/
def extract_gate_parts (payload : Envelope GateData) :
    GateData × Diagnostics × String :=
  (payload.data.getD emptyGateData, payload.diagnostics, payload.status)

/-- The `data` dict of an envelope (`payload.get("data", {})`). -/
def gateDataOf (payload : Envelope GateData) : GateData :=
  payload.data.getD emptyGateData

/-- Shared test "margin_of_safety is a number and < -1.0" used by both
confidence computations (the verdict gate first coerces a non-None value with
`float`, the pipeline checks `isinstance(..., (int, float))`; on a typed
optional rational the two coincide). -/
def mosDeeplyNegative : Option ℚ → Bool
  | none => false
  | some m => decide (m < -1.0)

/-- Source: `gate6_final_verdict._deterministic_confidence`. -/
def deterministic_confidence (margin_of_safety : Option ℚ)
    (impairment_risk : String) (market_structure : String)
    (key_data_missing : Bool) : ℤ :=
  let confidence : ℤ := 50
  let confidence := if mosDeeplyNegative margin_of_safety then confidence + 20
    else confidence
  let confidence := if impairment_risk = "LOW" then confidence + 10
    else confidence
  let confidence := if market_structure = "HEADWIND" then confidence - 10
    else confidence
  let confidence := if key_data_missing then confidence - 10 else confidence
  max 0 (min 100 confidence)

/-- Fields of the gate-6 result dict used by the claims (`summary`,
`key_drivers`, `gate_summary`, business fields omitted — they are narrative
surfaces fed by no claim). -/
structure VerdictData where
  verdict : String
  confidence : ℤ
  setup_label : String
  risk_notes : String
  margin_of_safety : Option ℚ
  valuation_band : String
  market_classification : String
  impairment_risk : String
  max_position_size : Option ℚ
  deriving DecidableEq, Repr

/-- Gate 6 name constant. -/
def gate6Name : String := "Gate 6 – Final Verdict"

/-- The `inputs_used` list of gate 6. -/
def gate6InputsUsed : List String :=
  ["gate2_output.pass", "gate2_output.margin_of_safety",
   "gate3_output.classification", "gate4_output.risk_level",
   "gate5_output.maximum_position_size"]

/-- Source: `gate6_final_verdict.aggregate_verdict`.  `gate1_output` feeds
only the (omitted) narrative business fields; the parameter is kept for
signature fidelity.  The `try/except` wrapper is not modelled. -/
def aggregate_verdict
    (gate2_output gate3_output gate4_output gate5_output : Envelope GateData)
    (gate1_output : Option GateData) : Envelope VerdictData :=
  let gate2_parts := extract_gate_parts gate2_output
  let gate3_parts := extract_gate_parts gate3_output
  let gate4_parts := extract_gate_parts gate4_output
  let gate5_parts := extract_gate_parts gate5_output
  let gate2_data := gate2_parts.1
  let gate3_data := gate3_parts.1
  let gate4_data := gate4_parts.1
  let gate5_data := gate5_parts.1
  let gate5_status := gate5_parts.2.2
  let required_fields :=
    [("gate3_output.classification", gate3_data.classification.map fun _ => ()),
     ("gate4_output.risk_level", gate4_data.risk_level.map fun _ => ())]
    ++ (if gate2_data.pass = none ∧ gate2_data.passes = none then
          [("gate2_output.pass", (none : Option Unit))]
        else [])
  let missing := missing_required_fields required_fields
  if missing ≠ [] then
    error_response VerdictData gate6Name "FINAL_VERDICT_MISSING_INPUTS"
      ("Missing required inputs: " ++ String.intercalate ", " missing)
      gate6InputsUsed missing (some "DATA_AVAILABILITY")
  else
    let valuation_pass : Bool :=
      gate2_data.pass.getD false || gate2_data.passes.getD false
    let vband := str_to_upper (gate2_data.valuation_band.getD "UNKNOWN")
    let margin_of_safety := gate2_data.margin_of_safety
    let market_classification :=
      str_to_upper (gate3_data.classification.getD "NO_RELEVANT_DATA_FOUND")
    let impairment_risk := str_to_upper (gate4_data.risk_level.getD "UNDETERMINED")
    let gate5_skipped : Bool :=
      (gate5_status == "SKIPPED")
        || ((str_to_upper (gate5_data.status.getD "")) == "SKIPPED")
    let vp : String × String :=
      if !valuation_pass then ("REJECT", "Valuation discipline breached")
      else if impairment_risk = "HIGH" then ("REJECT", "Impairment risk elevated")
      else if impairment_risk = "UNDETERMINED" then ("WATCH", "Impairment unresolved")
      else if impairment_risk = "LOW" then ("INVEST", "Risk acceptable")
      else ("WATCH", "Risk moderate")
    let verdict := vp.1
    let setup_label := vp.2
    let key_data_missing : Bool :=
      [gate2_parts.2.1, gate3_parts.2.1, gate4_parts.2.1,
       gate5_parts.2.1].any fun diag => !diag.missing_inputs.isEmpty
    let confidence := deterministic_confidence margin_of_safety impairment_risk
      market_classification key_data_missing
    let result : VerdictData :=
      { verdict := verdict, confidence := confidence,
        setup_label := setup_label,
        risk_notes := "Valuation band: " ++ vband ++ " | Impairment risk: "
          ++ impairment_risk ++ " | Market structure: " ++ market_classification,
        margin_of_safety := margin_of_safety, valuation_band := vband,
        market_classification := market_classification,
        impairment_risk := impairment_risk,
        max_position_size :=
          if verdict = "INVEST" ∧ gate5_skipped = false then
            gate5_data.maximum_position_size
          else none }
    ok_response gate6Name result gate6InputsUsed confidence
      (verdict ++ " — " ++ setup_label) none []

/-! Orchestrator (`orchestrator.py`) and pipeline confidence
(`response_utils.compute_pipeline_confidence`). -/

/-- Source: `orchestrator._should_suppress_sizing` (the `gate4_result`
parameter is accepted but unused by the source). -/
def should_suppress_sizing
    (gate2_result gate4_result : Envelope GateData) : Bool :=
  let g2_data := gateDataOf gate2_result
  let valuation_fail := !(g2_data.pass.getD false || g2_data.passes.getD false)
  valuation_fail

/-- Source: the inner `_find_gate_data` of
`response_utils.compute_pipeline_confidence` — first collected envelope whose
lowercased gate name starts with the given text.  (Envelope `data` is always
a dict, so the Python `isinstance(data, dict)` test always succeeds.) -/
def find_gate_data (gate_results : List (Envelope GateData)) (pre : String) :
    GateData :=
  match gate_results.find? (fun result =>
      str_starts_with pre (str_to_lower result.gate)) with
  | some result => result.data.getD emptyGateData
  | none => emptyGateData

/-- Source: `response_utils.compute_pipeline_confidence`. -/
def compute_pipeline_confidence (gate_results : List (Envelope GateData)) : ℤ :=
  if gate_results.isEmpty then 0
  else
    let gate2 := find_gate_data gate_results "gate 2"
    let gate3 := find_gate_data gate_results "gate 3"
    let gate4 := find_gate_data gate_results "gate 4"
    let confidence : ℤ := 50
    let confidence := if mosDeeplyNegative gate2.margin_of_safety then
        confidence + 20
      else confidence
    let confidence := if str_to_upper (gate4.risk_level.getD "") = "LOW" then
        confidence + 10
      else confidence
    let confidence := if str_to_upper (gate3.classification.getD "") = "HEADWIND" then
        confidence - 10
      else confidence
    let key_data_missing : Bool :=
      gate_results.any fun result => !result.diagnostics.missing_inputs.isEmpty
    let confidence := if key_data_missing then confidence - 10 else confidence
    max 0 (min 100 confidence)

/-- Gate 0 name constant. -/
def gate0Name : String := "Gate 0 – Identity"

/-- Gate 1 name constant. -/
def gate1Name : String := "Gate 1 – Business Context"

/-- Gate 3 name constant. -/
def gate3Name : String := "Gate 3 – Market Structure"

/-- Gate 4 name constant. -/
def gate4Name : String := "Gate 4 – Impairment Risk"

/-- Status, data, confidence and reported missing inputs of one collected
gate envelope in a pipeline run (the parts `run_pipeline` threads into
`gate_results`; gate names are fixed by the pipeline itself). -/
structure EnvContents where
  status : String
  data : Option GateData
  confidence : ℤ
  missing_inputs : List String
  deriving DecidableEq, Repr

/-- Rebuild the envelope a gate produced from its contents and its fixed
pipeline gate name. -/
def runEnvelope (gateName : String) (c : EnvContents) : Envelope GateData :=
  { status := c.status, gate := gateName, data := c.data,
    confidence := c.confidence, one_liner := "", errorCode := none,
    diagnostics := ⟨[], c.missing_inputs, none⟩ }

/-- View of the final-verdict envelope as a member of the heterogeneous
`gate_results` list.  `compute_pipeline_confidence` consults only the gate
name (which matches none of its lookups) and the diagnostics of this entry,
so its data payload is irrelevant and represented as empty. -/
def verdictEnvelopeAsGateResult (e : Envelope VerdictData) :
    Envelope GateData :=
  { status := e.status, gate := e.gate, data := some emptyGateData,
    confidence := e.confidence, one_liner := e.one_liner,
    errorCode := e.errorCode, diagnostics := e.diagnostics }

/-- One completed pipeline run, as `orchestrator.run_pipeline` collects it:
the identity envelope, the optional business-context envelope (appended only
when SEC business context was available), and the gate 2–5 envelopes. -/
structure PipelineRun where
  identity : EnvContents
  gate1 : Option EnvContents
  gate2 : EnvContents
  gate3 : EnvContents
  gate4 : EnvContents
  gate5 : EnvContents
  deriving DecidableEq, Repr

/-- The final verdict of a run (`aggregate_verdict(gate2_result, ...)` with
`gate1_output` the business-context data when that gate succeeded). -/
def finalVerdict (run : PipelineRun) : Envelope VerdictData :=
  aggregate_verdict (runEnvelope gate2Name run.gate2)
    (runEnvelope gate3Name run.gate3) (runEnvelope gate4Name run.gate4)
    (runEnvelope gate5Name run.gate5) (run.gate1.bind fun c => c.data)

/-- The `gate_results` list of a completed run, in the exact append order of
`run_pipeline`: identity, business context (when present), gates 2–5, final
verdict. -/
def gateResults (run : PipelineRun) : List (Envelope GateData) :=
  [runEnvelope gate0Name run.identity]
  ++ (match run.gate1 with
      | some c => [runEnvelope gate1Name c]
      | none => [])
  ++ [runEnvelope gate2Name run.gate2, runEnvelope gate3Name run.gate3,
      runEnvelope gate4Name run.gate4, runEnvelope gate5Name run.gate5,
      verdictEnvelopeAsGateResult (finalVerdict run)]

/-- The verdict string carried by a verdict envelope, when one was produced. -/
def verdictOf (e : Envelope VerdictData) : Option String :=
  e.data.map VerdictData.verdict

/-- Modelled from the spec: the §4.3 precedence chain over the two binding
upstream signals, first match wins ("valuation.pass=false ⇒ REJECT; else
HIGH ⇒ REJECT; else UNDETERMINED ⇒ WATCH; else LOW ⇒ INVEST; else WATCH").
Stated separately from `aggregate_verdict` so the code can be proved a
refinement of it. -/
def verdict_precedence (valuation_pass : Bool) (impairment_risk : String) :
    String :=
  if valuation_pass = false then "REJECT"
  else if impairment_risk = "HIGH" then "REJECT"
  else if impairment_risk = "UNDETERMINED" then "WATCH"
  else if impairment_risk = "LOW" then "INVEST"
  else "WATCH"

/-- The margin of safety as computed on the positive-intrinsic-price branch of
`calculate_valuation` (line 227 of the source). -/
def margin_of_safety_calc (cfg : ValuationConfig) (market_price net_income : ℚ)
    (free_cashflow : Option ℚ) (total_debt cash shares_outstanding : ℚ) : ℚ :=
  (intrinsic_price_calc cfg net_income free_cashflow total_debt cash
      shares_outstanding - market_price)
    / intrinsic_price_calc cfg net_income free_cashflow total_debt cash
        shares_outstanding

/-- The `data` dict produced on the computing path of `calculate_valuation`
(same lets as the source; factored out so field-level claims can be read off
the record). -/
def valuationDataCalc (cfg : ValuationConfig) (mp ni : ℚ) (fcf : Option ℚ)
    (td ch sh : ℚ) : ValuationData :=
  let oe_pair : ℚ × String :=
    match fcf with
    | none => (ni, "NET_INCOME")
    | some f => (min ni f, if ni ≤ f then "NET_INCOME" else "FREE_CASH_FLOW")
  let owner_earnings := oe_pair.1
  let owner_earnings_source := oe_pair.2
  let net_debt := td - ch
  let mr := valuation_policy cfg net_debt
  let multiple_used := mr.1
  let required_margin_used := mr.2
  let effective_net_debt := max 0 net_debt
  let intrinsic_equity := owner_earnings * multiple_used - effective_net_debt
  let intrinsic_price := intrinsic_equity / sh
  if intrinsic_price ≤ 0 then
    { owner_earnings := owner_earnings,
      owner_earnings_source_used := owner_earnings_source,
      net_debt := net_debt, effective_net_debt := effective_net_debt,
      intrinsic_equity := intrinsic_equity, intrinsic_price := intrinsic_price,
      market_price := mp, margin_of_safety := none,
      required_margin := required_margin_used, multiple_used := multiple_used,
      valuation_band := "IMPAIRED", pass := false, passes := false }
  else
    let margin_of_safety := (intrinsic_price - mp) / intrinsic_price
    let passes : Bool := decide (margin_of_safety ≥ required_margin_used)
    { owner_earnings := owner_earnings,
      owner_earnings_source_used := owner_earnings_source,
      net_debt := net_debt, effective_net_debt := effective_net_debt,
      intrinsic_equity := intrinsic_equity, intrinsic_price := intrinsic_price,
      market_price := mp, margin_of_safety := some margin_of_safety,
      required_margin := required_margin_used, multiple_used := multiple_used,
      valuation_band := valuation_band margin_of_safety,
      pass := passes, passes := passes }

/-- On valid inputs (all required present, positive share count) the gate-2
envelope carries exactly the computing-path data record. -/
theorem calculate_valuation_data_eq (cfg : ValuationConfig) (mp ni : ℚ)
    (fcf : Option ℚ) (td ch sh : ℚ) (hsh : 0 < sh) :
    (calculate_valuation cfg (some mp) (some ni) fcf (some td) (some ch)
      (some sh)).data = some (valuationDataCalc cfg mp ni fcf td ch sh) := by
  have hns : ¬ sh ≤ 0 := not_le.mpr hsh
  cases fcf <;>
    simp only [calculate_valuation, valuationDataCalc, missing_required_fields,
      Option.map_some', List.filter, Option.isNone_some, List.map_nil, ne_eq,
      not_true_eq_false, not_false_eq_true, if_neg, if_pos, ite_not,
      if_false, hns, ok_response, error_response] <;>
    split <;> simp

/-- C2: for every valid valuation input (all required inputs present,
`shares_outstanding > 0`) whose computed intrinsic price is positive,
`calculate_valuation` returns `margin_of_safety = (intrinsic_price −
market_price) / intrinsic_price` exactly, `pass` iff that margin is ≥ the
policy required margin, and the band is DEEP_VALUE / FAIR / EXPENSIVE
according to margin ≥ 0.50 / 0 ≤ margin < 0.50 / margin < 0. -/
theorem gate2_margin_pass_band (cfg : ValuationConfig) (mp ni : ℚ)
    (fcf : Option ℚ) (td ch sh : ℚ) (hsh : 0 < sh)
    (hip : 0 < intrinsic_price_calc cfg ni fcf td ch sh) :
    ∃ d : ValuationData,
      (calculate_valuation cfg (some mp) (some ni) fcf (some td) (some ch)
        (some sh)).data = some d
      ∧ d.margin_of_safety = some (margin_of_safety_calc cfg mp ni fcf td ch sh)
      ∧ (d.pass = true ↔
          margin_of_safety_calc cfg mp ni fcf td ch sh
            ≥ (valuation_policy cfg (td - ch)).2)
      ∧ (margin_of_safety_calc cfg mp ni fcf td ch sh ≥ 0.50 →
          d.valuation_band = "DEEP_VALUE")
      ∧ (0 ≤ margin_of_safety_calc cfg mp ni fcf td ch sh ∧
          margin_of_safety_calc cfg mp ni fcf td ch sh < 0.50 →
          d.valuation_band = "FAIR")
      ∧ (margin_of_safety_calc cfg mp ni fcf td ch sh < 0 →
          d.valuation_band = "EXPENSIVE") := by
  refine ⟨valuationDataCalc cfg mp ni fcf td ch sh,
    calculate_valuation_data_eq cfg mp ni fcf td ch sh hsh, ?_⟩
  cases fcf <;>
  · simp only [intrinsic_price_calc, margin_of_safety_calc] at hip ⊢
    simp only [valuationDataCalc, if_neg (not_le.mpr hip)]
    refine ⟨?_, ?_, ?_, ?_, ?_⟩
    · trivial
    · simp
    · intro h
      simp only [valuation_band]
      rw [if_pos h]
    · rintro ⟨h0, h1⟩
      simp only [valuation_band, ge_iff_le]
      rw [if_neg (not_le.mpr h1), if_pos h0]
    · intro h
      simp only [valuation_band, ge_iff_le]
      rw [if_neg (not_le.mpr (lt_of_lt_of_le h (by norm_num))),
        if_neg (not_le.mpr h)]

/-- Witness for C2, at the spec's own worked scenario (net income 100, free
cash flow 80, debt 50, cash 70, 10 shares, market price 5). -/
theorem gate2_margin_pass_band_witness :
    (0 : ℚ) < 10
    ∧ 0 < intrinsic_price_calc defaultValuationConfig 100 (some 80) 50 70 10
    ∧ ∃ d : ValuationData,
      (calculate_valuation defaultValuationConfig (some 5) (some 100) (some 80)
        (some 50) (some 70) (some 10)).data = some d
      ∧ d.margin_of_safety =
          some (margin_of_safety_calc defaultValuationConfig 5 100 (some 80)
            50 70 10)
      ∧ (d.pass = true ↔
          margin_of_safety_calc defaultValuationConfig 5 100 (some 80) 50 70 10
            ≥ (valuation_policy defaultValuationConfig (50 - 70)).2)
      ∧ (margin_of_safety_calc defaultValuationConfig 5 100 (some 80) 50 70 10
            ≥ 0.50 → d.valuation_band = "DEEP_VALUE")
      ∧ (0 ≤ margin_of_safety_calc defaultValuationConfig 5 100 (some 80) 50
            70 10 ∧
          margin_of_safety_calc defaultValuationConfig 5 100 (some 80) 50 70 10
            < 0.50 → d.valuation_band = "FAIR")
      ∧ (margin_of_safety_calc defaultValuationConfig 5 100 (some 80) 50 70 10
            < 0 → d.valuation_band = "EXPENSIVE") :=
  ⟨by norm_num,
   by norm_num [intrinsic_price_calc, valuation_policy, defaultValuationConfig],
   gate2_margin_pass_band defaultValuationConfig 5 100 (some 80) 50 70 10
     (by norm_num)
     (by norm_num [intrinsic_price_calc, valuation_policy,
       defaultValuationConfig])⟩

/-- C3: on every valid valuation input, owner earnings are the net income
when free cash flow is absent and the minimum of the two otherwise (with the
source recorded), net debt is `total_debt − cash`, and the net-cash policy
applies: for `net_debt ≤ 0` the multiple is base + 2.0, the required margin is
`max(0.20, base − 0.05)` and the effective net debt is 0, while for
`net_debt > 0` the base multiple and margin are used unchanged and the
effective net debt is the net debt. -/
theorem gate2_owner_earnings_policy (cfg : ValuationConfig) (mp ni : ℚ)
    (fcf : Option ℚ) (td ch sh : ℚ) (hsh : 0 < sh) :
    ∃ d : ValuationData,
      (calculate_valuation cfg (some mp) (some ni) fcf (some td) (some ch)
        (some sh)).data = some d
      ∧ d.owner_earnings = (match fcf with
          | none => ni
          | some f => min ni f)
      ∧ d.owner_earnings_source_used = (match fcf with
          | none => "NET_INCOME"
          | some f => if ni ≤ f then "NET_INCOME" else "FREE_CASH_FLOW")
      ∧ d.net_debt = td - ch
      ∧ (td - ch ≤ 0 →
          d.multiple_used = cfg.VALUATION_MULTIPLE + 2.0
          ∧ d.required_margin = max 0.20 (cfg.REQUIRED_MARGIN - 0.05)
          ∧ d.effective_net_debt = 0)
      ∧ (0 < td - ch →
          d.multiple_used = cfg.VALUATION_MULTIPLE
          ∧ d.required_margin = cfg.REQUIRED_MARGIN
          ∧ d.effective_net_debt = td - ch) := by
  refine ⟨valuationDataCalc cfg mp ni fcf td ch sh,
    calculate_valuation_data_eq cfg mp ni fcf td ch sh hsh, ?_, ?_, ?_, ?_, ?_⟩
  · cases fcf <;> (simp only [valuationDataCalc]; split <;> rfl)
  · cases fcf <;> (simp only [valuationDataCalc]; split <;> rfl)
  · cases fcf <;> (simp only [valuationDataCalc]; split <;> rfl)
  · intro h
    have h' : td ≤ ch := sub_nonpos.mp h
    cases fcf <;>
      (simp only [valuationDataCalc]; split <;>
        simp [valuation_policy, h', max_eq_left h])
  · intro h
    have h' : ¬ td ≤ ch := not_le.mpr (sub_pos.mp h)
    cases fcf <;>
      (simp only [valuationDataCalc]; split <;>
        simp [valuation_policy, h', max_eq_right h.le])

/-- Witness for C3: the theorem applied at the spec's worked net-cash
scenario (net debt −20). -/
theorem gate2_owner_earnings_policy_witness :
    (0 : ℚ) < 10
    ∧ ∃ d : ValuationData,
      (calculate_valuation defaultValuationConfig (some 5) (some 100) (some 80)
        (some 50) (some 70) (some 10)).data = some d
      ∧ d.owner_earnings = min 100 80
      ∧ d.owner_earnings_source_used =
          (if (100 : ℚ) ≤ 80 then "NET_INCOME" else "FREE_CASH_FLOW")
      ∧ d.net_debt = 50 - 70
      ∧ ((50 : ℚ) - 70 ≤ 0 →
          d.multiple_used = defaultValuationConfig.VALUATION_MULTIPLE + 2.0
          ∧ d.required_margin =
              max 0.20 (defaultValuationConfig.REQUIRED_MARGIN - 0.05)
          ∧ d.effective_net_debt = 0)
      ∧ ((0 : ℚ) < 50 - 70 →
          d.multiple_used = defaultValuationConfig.VALUATION_MULTIPLE
          ∧ d.required_margin = defaultValuationConfig.REQUIRED_MARGIN
          ∧ d.effective_net_debt = 50 - 70) :=
  ⟨by norm_num,
   gate2_owner_earnings_policy defaultValuationConfig 5 100 (some 80) 50 70 10
     (by norm_num)⟩

/-- C4: on every valid valuation input whose computed intrinsic price is
non-positive, `calculate_valuation` returns band IMPAIRED, `pass = false` and
`margin_of_safety = null` — the margin division is never performed on a
non-positive intrinsic price. -/
theorem gate2_impaired_no_division (cfg : ValuationConfig) (mp ni : ℚ)
    (fcf : Option ℚ) (td ch sh : ℚ) (hsh : 0 < sh)
    (hip : intrinsic_price_calc cfg ni fcf td ch sh ≤ 0) :
    ∃ d : ValuationData,
      (calculate_valuation cfg (some mp) (some ni) fcf (some td) (some ch)
        (some sh)).data = some d
      ∧ d.valuation_band = "IMPAIRED"
      ∧ d.pass = false
      ∧ d.margin_of_safety = none := by
  refine ⟨valuationDataCalc cfg mp ni fcf td ch sh,
    calculate_valuation_data_eq cfg mp ni fcf td ch sh hsh, ?_⟩
  cases fcf <;>
  · simp only [intrinsic_price_calc] at hip
    simp only [valuationDataCalc, if_pos hip]
    simp

/-- Witness for C4: negative owner earnings make the intrinsic price −120. -/
theorem gate2_impaired_no_division_witness :
    (0 : ℚ) < 1
    ∧ intrinsic_price_calc defaultValuationConfig (-10) none 0 0 1 ≤ 0
    ∧ ∃ d : ValuationData,
      (calculate_valuation defaultValuationConfig (some 1) (some (-10)) none
        (some 0) (some 0) (some 1)).data = some d
      ∧ d.valuation_band = "IMPAIRED"
      ∧ d.pass = false
      ∧ d.margin_of_safety = none :=
  ⟨by norm_num,
   by norm_num [intrinsic_price_calc, valuation_policy, defaultValuationConfig],
   gate2_impaired_no_division defaultValuationConfig 1 (-10) none 0 0 1
     (by norm_num)
     (by norm_num [intrinsic_price_calc, valuation_policy,
       defaultValuationConfig])⟩

/-- With all required inputs present and a non-positive share count, gate 2
returns the invalid-shares error envelope. -/
theorem calculate_valuation_invalid_shares (cfg : ValuationConfig)
    (mp ni : ℚ) (fcf : Option ℚ) (td ch s : ℚ) (hs : s ≤ 0) :
    calculate_valuation cfg (some mp) (some ni) fcf (some td) (some ch)
      (some s)
      = error_response ValuationData gate2Name "VALUATION_INVALID_SHARES"
          "shares_outstanding must be > 0" gate2InputsUsed []
          (some "DATA_AVAILABILITY") := by
  simp [calculate_valuation, missing_required_fields, hs]

/-- With all required inputs present and a positive share count, gate 2
reports status OK. -/
theorem calculate_valuation_ok_status (cfg : ValuationConfig)
    (mp ni : ℚ) (fcf : Option ℚ) (td ch s : ℚ) (hs : 0 < s) :
    (calculate_valuation cfg (some mp) (some ni) fcf (some td) (some ch)
      (some s)).status = "OK" := by
  have hns : ¬ s ≤ 0 := not_le.mpr hs
  cases fcf <;>
  · simp only [calculate_valuation, missing_required_fields,
      Option.map_some', List.filter, Option.isNone_some, List.map_nil, ne_eq,
      not_true_eq_false, not_false_eq_true, if_neg, if_pos, ite_not, if_false,
      hns, ok_response, error_response]
    split <;> rfl

/-- C5 (amended): `calculate_valuation` returns an ERROR envelope iff a
required input among market price, net income, total debt, cash, shares is
absent — with code `VALUATION_MISSING_INPUTS` — or the share count is ≤ 0 —
with code `VALUATION_INVALID_SHARES`; the ERROR envelope carries empty data
and confidence 0, and no default is substituted for a missing input. -/
theorem gate2_error_conditions (cfg : ValuationConfig)
    (mp ni fcf td ch sh : Option ℚ) :
    ((calculate_valuation cfg mp ni fcf td ch sh).status = "ERROR" ↔
      (mp = none ∨ ni = none ∨ td = none ∨ ch = none ∨ sh = none
        ∨ ∃ s, sh = some s ∧ s ≤ 0))
    ∧ ((calculate_valuation cfg mp ni fcf td ch sh).status = "ERROR" →
        (calculate_valuation cfg mp ni fcf td ch sh).data = none
        ∧ (calculate_valuation cfg mp ni fcf td ch sh).confidence = 0)
    ∧ ((mp = none ∨ ni = none ∨ td = none ∨ ch = none ∨ sh = none) →
        (calculate_valuation cfg mp ni fcf td ch sh).errorCode
          = some "VALUATION_MISSING_INPUTS")
    ∧ (mp ≠ none → ni ≠ none → td ≠ none → ch ≠ none →
        ∀ s, sh = some s → s ≤ 0 →
        (calculate_valuation cfg mp ni fcf td ch sh).errorCode
          = some "VALUATION_INVALID_SHARES") := by
  cases mp <;> cases ni <;> cases td <;> cases ch <;> cases sh <;>
    try (simp [calculate_valuation, missing_required_fields, error_response]
         done)
  rename_i mp ni td ch s
  by_cases hs : s ≤ 0
  · rw [calculate_valuation_invalid_shares cfg mp ni fcf td ch s hs]
    refine ⟨?_, fun _ => ⟨rfl, rfl⟩, ?_, fun _ _ _ _ _ _ _ => rfl⟩
    · simp [error_response, hs]
    · rintro (h | h | h | h | h) <;> simp at h
  · have hst := calculate_valuation_ok_status cfg mp ni fcf td ch s
      (not_le.mp hs)
    have hne : ("OK" : String) ≠ "ERROR" := by decide
    refine ⟨?_, fun h => absurd (hst.symm.trans h) hne, ?_, ?_⟩
    · rw [hst]
      simp [hne, hs]
    · rintro (h | h | h | h | h) <;> simp at h
    · intro _ _ _ _ s'' hseq hle
      rw [Option.some_inj] at hseq
      rw [hseq] at hs
      exact absurd hle hs

/-- Witness for C5: the theorem applied with an absent market price forces the
ERROR status. -/
theorem gate2_error_conditions_witness :
    (calculate_valuation defaultValuationConfig none (some 1) none (some 1)
      (some 1) (some 1)).status = "ERROR" :=
  (gate2_error_conditions defaultValuationConfig none (some 1) none (some 1)
    (some 1) (some 1)).1.mpr (Or.inl rfl)

/-- C5 counterexample: the error codes actually emitted are
`VALUATION_MISSING_INPUTS` and `VALUATION_INVALID_SHARES`, not the claimed
bare `MISSING_INPUTS` / `INVALID_SHARES`. -/
theorem gate2_error_code_counterexample :
    (calculate_valuation defaultValuationConfig none (some 1) none (some 1)
      (some 1) (some 1)).status = "ERROR"
    ∧ (calculate_valuation defaultValuationConfig none (some 1) none (some 1)
      (some 1) (some 1)).errorCode = some "VALUATION_MISSING_INPUTS"
    ∧ (calculate_valuation defaultValuationConfig none (some 1) none (some 1)
      (some 1) (some 1)).errorCode ≠ some "MISSING_INPUTS"
    ∧ (calculate_valuation defaultValuationConfig (some 1) (some 1) none
      (some 1) (some 1) (some 0)).errorCode = some "VALUATION_INVALID_SHARES"
    ∧ (calculate_valuation defaultValuationConfig (some 1) (some 1) none
      (some 1) (some 1) (some 0)).errorCode ≠ some "INVALID_SHARES" := by
  decide

/-- The factor dict as built on the computing path of
`calculate_position_size`. -/
def sizingFactorsCalc (vol dd rate corr : ℚ) (credit : String) :
    SizingFactors :=
  { VOLATILITY := volatility_factor vol, DRAWDOWN := drawdown_factor dd,
    CORRELATION := correlation_factor corr,
    MACRO := macro_factor rate credit }

/-- Characterization of `_binding_constraint`: it names a factor attaining the
minimum, and exact ties are broken by the fixed precedence
VOLATILITY > DRAWDOWN > CORRELATION > MACRO. -/
theorem binding_constraint_spec (f : SizingFactors) :
    (binding_constraint f = "VOLATILITY" ↔ f.VOLATILITY = factorsMin f)
    ∧ (binding_constraint f = "DRAWDOWN" ↔
        ¬f.VOLATILITY = factorsMin f ∧ f.DRAWDOWN = factorsMin f)
    ∧ (binding_constraint f = "CORRELATION" ↔
        ¬f.VOLATILITY = factorsMin f ∧ ¬f.DRAWDOWN = factorsMin f
          ∧ f.CORRELATION = factorsMin f)
    ∧ (binding_constraint f = "MACRO" ↔
        ¬f.VOLATILITY = factorsMin f ∧ ¬f.DRAWDOWN = factorsMin f
          ∧ ¬f.CORRELATION = factorsMin f) := by
  have hVD : ("VOLATILITY" : String) ≠ "DRAWDOWN" := by decide
  have hVC : ("VOLATILITY" : String) ≠ "CORRELATION" := by decide
  have hVM : ("VOLATILITY" : String) ≠ "MACRO" := by decide
  have hDC : ("DRAWDOWN" : String) ≠ "CORRELATION" := by decide
  have hDM : ("DRAWDOWN" : String) ≠ "MACRO" := by decide
  have hCM : ("CORRELATION" : String) ≠ "MACRO" := by decide
  simp only [binding_constraint]
  split_ifs with h1 h2 h3 <;> simp_all

/-- The `data` dict produced on the computing path of
`calculate_position_size`. -/
def sizingDataCalc (vol dd rate corr : ℚ) (credit : String) : SizingData :=
  { status := none,
    maximum_position_size := some (max 1.0 (min
      (10.0 * volatility_factor vol * drawdown_factor dd
        * correlation_factor corr * macro_factor rate credit) 10.0)),
    confidence := none, reason := none,
    binding_constraint :=
      some (binding_constraint (sizingFactorsCalc vol dd rate corr credit)),
    credit_stress := some credit,
    factors := some (sizingFactorsCalc vol dd rate corr credit) }

/-- On the computing path (no skip condition holds), the gate-5 envelope
carries exactly the computing-path data record. -/
theorem calculate_position_size_data_eq (vol dd rate corr : ℚ) (cs : String)
    (hcs : str_to_upper cs ∈ VALID_CREDIT_STRESS) (hrate : rate ≤ 1.0) :
    (calculate_position_size (some vol) (some dd) (some rate) (some cs)
      (some corr) false).data
      = some (sizingDataCalc vol dd rate corr (str_to_upper cs)) := by
  have hmem : ¬ (str_to_upper cs ∉ VALID_CREDIT_STRESS) := not_not_intro hcs
  have hnr : ¬ (rate > 1.0) := not_lt.mpr hrate
  simp only [calculate_position_size, missing_required_fields,
    Option.map_some', List.filter, Option.isNone_some, List.map_nil, ne_eq,
    not_true_eq_false, not_false_eq_true, if_false, Bool.false_eq_true,
    ite_false, hmem, hnr, if_neg, ok_response, sizingFactorsCalc,
    sizingDataCalc]

/-- C6: on the computing path of `calculate_position_size` (no skip condition
holds), the maximum position size is `clamp(10 × Π factors, 1, 10)` — hence
always in [1, 10] — and the binding constraint is the factor with the minimum
multiplier, ties broken by the fixed precedence order. -/
theorem gate5_size_clamp_binding (vol dd rate corr : ℚ) (cs : String)
    (hcs : str_to_upper cs ∈ VALID_CREDIT_STRESS) (hrate : rate ≤ 1.0) :
    ∃ d : SizingData,
      (calculate_position_size (some vol) (some dd) (some rate) (some cs)
        (some corr) false).data = some d
      ∧ d.maximum_position_size = some (max 1.0 (min
          (10.0 * volatility_factor vol * drawdown_factor dd
            * correlation_factor corr * macro_factor rate (str_to_upper cs))
          10.0))
      ∧ (∀ x, d.maximum_position_size = some x → 1.0 ≤ x ∧ x ≤ 10.0)
      ∧ d.binding_constraint =
          some (binding_constraint
            (sizingFactorsCalc vol dd rate corr (str_to_upper cs)))
      ∧ (binding_constraint (sizingFactorsCalc vol dd rate corr
            (str_to_upper cs)) = "VOLATILITY" ↔
          (sizingFactorsCalc vol dd rate corr (str_to_upper cs)).VOLATILITY
            = factorsMin (sizingFactorsCalc vol dd rate corr (str_to_upper cs)))
      ∧ (binding_constraint (sizingFactorsCalc vol dd rate corr
            (str_to_upper cs)) = "DRAWDOWN" ↔
          ¬(sizingFactorsCalc vol dd rate corr (str_to_upper cs)).VOLATILITY
            = factorsMin (sizingFactorsCalc vol dd rate corr (str_to_upper cs))
          ∧ (sizingFactorsCalc vol dd rate corr (str_to_upper cs)).DRAWDOWN
            = factorsMin (sizingFactorsCalc vol dd rate corr (str_to_upper cs)))
      ∧ (binding_constraint (sizingFactorsCalc vol dd rate corr
            (str_to_upper cs)) = "CORRELATION" ↔
          ¬(sizingFactorsCalc vol dd rate corr (str_to_upper cs)).VOLATILITY
            = factorsMin (sizingFactorsCalc vol dd rate corr (str_to_upper cs))
          ∧ ¬(sizingFactorsCalc vol dd rate corr (str_to_upper cs)).DRAWDOWN
            = factorsMin (sizingFactorsCalc vol dd rate corr (str_to_upper cs))
          ∧ (sizingFactorsCalc vol dd rate corr (str_to_upper cs)).CORRELATION
            = factorsMin (sizingFactorsCalc vol dd rate corr (str_to_upper cs)))
      ∧ (binding_constraint (sizingFactorsCalc vol dd rate corr
            (str_to_upper cs)) = "MACRO" ↔
          ¬(sizingFactorsCalc vol dd rate corr (str_to_upper cs)).VOLATILITY
            = factorsMin (sizingFactorsCalc vol dd rate corr (str_to_upper cs))
          ∧ ¬(sizingFactorsCalc vol dd rate corr (str_to_upper cs)).DRAWDOWN
            = factorsMin (sizingFactorsCalc vol dd rate corr (str_to_upper cs))
          ∧ ¬(sizingFactorsCalc vol dd rate corr (str_to_upper cs)).CORRELATION
            = factorsMin (sizingFactorsCalc vol dd rate corr
                (str_to_upper cs))) := by
  refine ⟨sizingDataCalc vol dd rate corr (str_to_upper cs),
    calculate_position_size_data_eq vol dd rate corr cs hcs hrate, rfl, ?_,
    rfl, (binding_constraint_spec _).1, (binding_constraint_spec _).2.1,
    (binding_constraint_spec _).2.2.1, (binding_constraint_spec _).2.2.2⟩
  intro x hx
  rw [show (sizingDataCalc vol dd rate corr
      (str_to_upper cs)).maximum_position_size
    = some (max 1.0 (min (10.0 * volatility_factor vol * drawdown_factor dd
        * correlation_factor corr * macro_factor rate (str_to_upper cs)) 10.0))
    from rfl, Option.some_inj] at hx
  constructor
  · rw [← hx]
    exact le_max_left _ _
  · rw [← hx]
    exact max_le (by norm_num) (min_le_right _ _)

/-- Witness for C6, at the spec's worked sizing scenario (volatility 0.60,
drawdown 0.50, correlation 0.90, rate 0.08, credit stress HIGH). -/
theorem gate5_size_clamp_binding_witness :
    str_to_upper "HIGH" ∈ VALID_CREDIT_STRESS
    ∧ (0.08 : ℚ) ≤ 1.0
    ∧ ∃ d : SizingData,
      (calculate_position_size (some 0.60) (some 0.50) (some 0.08)
        (some "HIGH") (some 0.90) false).data = some d
      ∧ d.maximum_position_size = some (max 1.0 (min
          (10.0 * volatility_factor 0.60 * drawdown_factor 0.50
            * correlation_factor 0.90 * macro_factor 0.08
              (str_to_upper "HIGH")) 10.0))
      ∧ (∀ x, d.maximum_position_size = some x → 1.0 ≤ x ∧ x ≤ 10.0)
      ∧ d.binding_constraint =
          some (binding_constraint
            (sizingFactorsCalc 0.60 0.50 0.08 0.90 (str_to_upper "HIGH"))) :=
  ⟨by decide, by norm_num,
   match gate5_size_clamp_binding 0.60 0.50 0.08 0.90 "HIGH" (by decide)
     (by norm_num) with
   | ⟨d, h1, h2, h3, h4, _⟩ => ⟨d, h1, h2, h3, h4⟩⟩

/-- C7 (amended): `calculate_position_size` returns a SKIPPED envelope with a
null maximum position size iff the upstream-reject flag is set (checked
first, regardless of the other inputs), or a required input is absent, or the
upper-cased credit stress is not one of LOW/MEDIUM/HIGH, or the interest rate
exceeds 1.0; no value is guessed for a missing or invalid input. -/
theorem gate5_skip_iff (vol dd rate : Option ℚ) (cs : Option String)
    (corr : Option ℚ) (ur : Bool) :
    ((calculate_position_size vol dd rate cs corr ur).status = "SKIPPED" ↔
      (ur = true ∨ vol = none ∨ dd = none ∨ rate = none ∨ cs = none
        ∨ corr = none
        ∨ (∃ c, cs = some c ∧ str_to_upper c ∉ VALID_CREDIT_STRESS)
        ∨ (∃ r, rate = some r ∧ r > 1.0)))
    ∧ ((calculate_position_size vol dd rate cs corr ur).status = "SKIPPED" →
        ∃ sd, (calculate_position_size vol dd rate cs corr ur).data = some sd
          ∧ sd.maximum_position_size = none)
    ∧ (ur = true →
        ∃ sd, (calculate_position_size vol dd rate cs corr ur).data = some sd
          ∧ sd.reason =
              some "Valuation gate failed — position sizing not applicable.") := by
  have hok : ("OK" : String) ≠ "SKIPPED" := by decide
  cases ur
  case true =>
    refine ⟨⟨fun _ => Or.inl rfl, fun _ => rfl⟩, fun _ => ?_, fun _ => ?_⟩ <;>
      exact ⟨sizingSkipData
        "Valuation gate failed — position sizing not applicable.", rfl, rfl⟩
  case false =>
    cases vol <;> cases dd <;> cases rate <;> cases cs <;> cases corr <;>
      try (simp [calculate_position_size, missing_required_fields,
        skipped_response, sizingSkipData]
           done)
    rename_i vol dd rate c corr
    by_cases hc : str_to_upper c ∈ VALID_CREDIT_STRESS
    · by_cases hr : rate > 1.0
      · have he : calculate_position_size (some vol) (some dd) (some rate)
            (some c) (some corr) false
            = skipped_response gate5Name
                (sizingSkipData "Position sizing skipped — interest_rate must be decimal (e.g., 0.0364 for 3.64%).")
                gate5InputsUsed
                "Position sizing skipped — interest_rate must be decimal (e.g., 0.0364 for 3.64%)."
                [] (some "DATA_AVAILABILITY") := by
          simp [calculate_position_size, missing_required_fields,
            not_not_intro hc, hr]
        rw [he]
        refine ⟨⟨fun _ => ?_, fun _ => rfl⟩, fun _ => ?_, fun h => ?_⟩
        · exact Or.inr (Or.inr (Or.inr (Or.inr (Or.inr (Or.inr (Or.inr
            ⟨rate, rfl, hr⟩))))))
        · exact ⟨_, rfl, rfl⟩
        · exact absurd h (by decide)
      · have hst := calculate_position_size_data_eq vol dd rate corr c hc
          (not_lt.mp hr)
        have hso : (calculate_position_size (some vol) (some dd) (some rate)
            (some c) (some corr) false).status = "OK" := by
          simp [calculate_position_size, missing_required_fields,
            not_not_intro hc, hr, ok_response]
        rw [hso]
        refine ⟨⟨fun h => absurd h hok, ?_⟩, fun h => absurd h hok,
          fun h => by cases h⟩
        rintro (h | h | h | h | h | h | ⟨c', hc', hmem⟩ | ⟨r', hr', hgt⟩)
        · cases h
        · cases h
        · cases h
        · cases h
        · cases h
        · cases h
        · rw [Option.some_inj] at hc'
          rw [← hc'] at hmem
          exact absurd hc hmem
        · rw [Option.some_inj] at hr'
          rw [← hr'] at hgt
          exact absurd hgt hr
    · have he : calculate_position_size (some vol) (some dd) (some rate)
          (some c) (some corr) false
          = skipped_response gate5Name
              (sizingSkipData "Position sizing skipped — invalid credit_stress")
              gate5InputsUsed
              "Position sizing skipped — invalid credit_stress"
              [] (some "DATA_AVAILABILITY") := by
        simp [calculate_position_size, missing_required_fields, hc]
      rw [he]
      refine ⟨⟨fun _ => ?_, fun _ => rfl⟩, fun _ => ?_, fun h => ?_⟩
      · exact Or.inr (Or.inr (Or.inr (Or.inr (Or.inr (Or.inr (Or.inl
          ⟨c, rfl, hc⟩))))))
      · exact ⟨_, rfl, rfl⟩
      · exact absurd h (by decide)

/-- C7 counterexample: the membership test runs on the upper-cased credit
stress, so the raw value "low" — not itself one of {LOW, MEDIUM, HIGH} — is
accepted and sizing computes (status OK), where the claim as stated demands a
SKIPPED envelope. -/
theorem gate5_skip_case_counterexample :
    (calculate_position_size (some 0) (some 0) (some 0) (some "low") (some 0)
      false).status = "OK"
    ∧ "low" ∉ VALID_CREDIT_STRESS := by
  constructor
  · have hmem : ¬ (str_to_upper "low" ∉ VALID_CREDIT_STRESS) := by decide
    have hr : ¬ ((0 : ℚ) > 1.0) := by norm_num
    simp [calculate_position_size, missing_required_fields, hmem, hr,
      ok_response]
  · decide

/-- Witness for C7: with the upstream-reject flag set, sizing is SKIPPED with
the not-applicable reason even though every other input is valid. -/
theorem gate5_skip_iff_witness :
    (calculate_position_size (some 0.10) (some 0.10) (some 0.03) (some "LOW")
      (some 0.10) true).status = "SKIPPED"
    ∧ ∃ sd, (calculate_position_size (some 0.10) (some 0.10) (some 0.03)
        (some "LOW") (some 0.10) true).data = some sd
      ∧ sd.reason =
          some "Valuation gate failed — position sizing not applicable." :=
  ⟨(gate5_skip_iff (some 0.10) (some 0.10) (some 0.03) (some "LOW")
      (some 0.10) true).1.mpr (Or.inl rfl),
   (gate5_skip_iff (some 0.10) (some 0.10) (some 0.03) (some "LOW")
      (some 0.10) true).2.2 rfl⟩

/-- The result dict built on the success path of `aggregate_verdict` (same
lets as the source). -/
def verdictDataCalc
    (gate2_output gate3_output gate4_output gate5_output : Envelope GateData) :
    VerdictData :=
  let gate2_data := gateDataOf gate2_output
  let gate3_data := gateDataOf gate3_output
  let gate4_data := gateDataOf gate4_output
  let gate5_data := gateDataOf gate5_output
  let gate5_status := gate5_output.status
  let valuation_pass : Bool :=
    gate2_data.pass.getD false || gate2_data.passes.getD false
  let vband := str_to_upper (gate2_data.valuation_band.getD "UNKNOWN")
  let margin_of_safety := gate2_data.margin_of_safety
  let market_classification :=
    str_to_upper (gate3_data.classification.getD "NO_RELEVANT_DATA_FOUND")
  let impairment_risk :=
    str_to_upper (gate4_data.risk_level.getD "UNDETERMINED")
  let gate5_skipped : Bool :=
    (gate5_status == "SKIPPED")
      || ((str_to_upper (gate5_data.status.getD "")) == "SKIPPED")
  let vp : String × String :=
    if !valuation_pass then ("REJECT", "Valuation discipline breached")
    else if impairment_risk = "HIGH" then ("REJECT", "Impairment risk elevated")
    else if impairment_risk = "UNDETERMINED" then ("WATCH", "Impairment unresolved")
    else if impairment_risk = "LOW" then ("INVEST", "Risk acceptable")
    else ("WATCH", "Risk moderate")
  let verdict := vp.1
  let setup_label := vp.2
  let key_data_missing : Bool :=
    [gate2_output.diagnostics, gate3_output.diagnostics,
     gate4_output.diagnostics, gate5_output.diagnostics].any
      fun diag => !diag.missing_inputs.isEmpty
  let confidence := deterministic_confidence margin_of_safety impairment_risk
    market_classification key_data_missing
  { verdict := verdict, confidence := confidence, setup_label := setup_label,
    risk_notes := "Valuation band: " ++ vband ++ " | Impairment risk: "
      ++ impairment_risk ++ " | Market structure: " ++ market_classification,
    margin_of_safety := margin_of_safety, valuation_band := vband,
    market_classification := market_classification,
    impairment_risk := impairment_risk,
    max_position_size :=
      if verdict = "INVEST" ∧ gate5_skipped = false then
        gate5_data.maximum_position_size
      else none }

/-- When the three required signals are present, `aggregate_verdict` returns
the OK envelope around the success-path result dict. -/
theorem aggregate_verdict_ok
    (g2 g3 g4 g5 : Envelope GateData) (g1 : Option GateData)
    (h3 : (gateDataOf g3).classification.isSome = true)
    (h4 : (gateDataOf g4).risk_level.isSome = true)
    (h2 : (gateDataOf g2).pass ≠ none ∨ (gateDataOf g2).passes ≠ none) :
    aggregate_verdict g2 g3 g4 g5 g1
      = ok_response gate6Name (verdictDataCalc g2 g3 g4 g5) gate6InputsUsed
          (verdictDataCalc g2 g3 g4 g5).confidence
          ((verdictDataCalc g2 g3 g4 g5).verdict ++ " — "
            ++ (verdictDataCalc g2 g3 g4 g5).setup_label) none [] := by
  obtain ⟨c, hc⟩ := Option.isSome_iff_exists.mp h3
  obtain ⟨r, hr⟩ := Option.isSome_iff_exists.mp h4
  have hpp : ¬((gateDataOf g2).pass = none ∧ (gateDataOf g2).passes = none) := by
    rcases h2 with h | h <;> exact fun hb => h (by simp [hb.1, hb.2])
  simp only [gateDataOf] at hc hr hpp
  simp [aggregate_verdict, verdictDataCalc, extract_gate_parts, gateDataOf,
    missing_required_fields, hc, hr, hpp, ok_response,
    deterministic_confidence]

/-- When the impairment signal is absent or the valuation pass signal is
undeterminable, `aggregate_verdict` returns an ERROR envelope (empty data). -/
theorem aggregate_verdict_data_none
    (g2 g3 g4 g5 : Envelope GateData) (g1 : Option GateData)
    (h : (gateDataOf g4).risk_level = none
      ∨ ((gateDataOf g2).pass = none ∧ (gateDataOf g2).passes = none)) :
    (aggregate_verdict g2 g3 g4 g5 g1).data = none := by
  rcases h with h4 | ⟨hp, hq⟩
  · simp only [gateDataOf] at h4
    cases hcls : (g3.data.getD emptyGateData).classification <;>
      by_cases hpp : (g2.data.getD emptyGateData).pass = none
          ∧ (g2.data.getD emptyGateData).passes = none <;>
      simp [aggregate_verdict, extract_gate_parts, gateDataOf,
        missing_required_fields, error_response, h4, hcls, hpp]
  · simp only [gateDataOf] at hp hq
    cases hcls : (g3.data.getD emptyGateData).classification <;>
      cases hrl : (g4.data.getD emptyGateData).risk_level <;>
      simp [aggregate_verdict, extract_gate_parts, gateDataOf,
        missing_required_fields, error_response, hp, hq, hcls, hrl]

/-- The verdict field of the success-path result is exactly the spec's
precedence chain applied to the truthy valuation-pass signal and the
upper-cased impairment risk level. -/
theorem verdictDataCalc_verdict (g2 g3 g4 g5 : Envelope GateData) :
    (verdictDataCalc g2 g3 g4 g5).verdict
      = verdict_precedence
          ((gateDataOf g2).pass.getD false || (gateDataOf g2).passes.getD false)
          (str_to_upper ((gateDataOf g4).risk_level.getD "UNDETERMINED")) := by
  simp only [verdictDataCalc, verdict_precedence]
  cases hb : (gateDataOf g2).pass.getD false
      || (gateDataOf g2).passes.getD false <;>
    simp only [hb, Bool.not_false, Bool.not_true, if_true, if_false,
      Bool.false_eq_true, Bool.true_eq_false, ite_true, ite_false] <;>
    try rfl
  split_ifs <;> rfl

/-- C1: for every set of gate outputs accepted by `aggregate_verdict`, the
verdict is the first matching rule of the fixed precedence: valuation fail ⇒
REJECT; else HIGH ⇒ REJECT; else UNDETERMINED ⇒ WATCH; else LOW ⇒ INVEST;
otherwise (e.g. MEDIUM) WATCH.  In particular a failed valuation rejects even
with LOW impairment, and UNDETERMINED impairment with a passing valuation
yields WATCH, never INVEST. -/
theorem gate6_verdict_precedence
    (g2 g3 g4 g5 : Envelope GateData) (g1 : Option GateData)
    (h3 : (gateDataOf g3).classification.isSome = true)
    (h4 : (gateDataOf g4).risk_level.isSome = true)
    (h2 : (gateDataOf g2).pass ≠ none ∨ (gateDataOf g2).passes ≠ none) :
    verdictOf (aggregate_verdict g2 g3 g4 g5 g1)
      = some (verdict_precedence
          ((gateDataOf g2).pass.getD false || (gateDataOf g2).passes.getD false)
          (str_to_upper ((gateDataOf g4).risk_level.getD "UNDETERMINED")))
    ∧ (∀ risk, verdict_precedence false risk = "REJECT")
    ∧ verdict_precedence true "UNDETERMINED" = "WATCH"
    ∧ verdict_precedence true "HIGH" = "REJECT"
    ∧ verdict_precedence true "LOW" = "INVEST"
    ∧ verdict_precedence true "MEDIUM" = "WATCH" := by
  refine ⟨?_, fun risk => rfl, by decide, by decide, by decide, by decide⟩
  rw [aggregate_verdict_ok g2 g3 g4 g5 g1 h3 h4 h2]
  simp only [verdictOf, ok_response, Option.map_some']
  rw [verdictDataCalc_verdict]

/-- Gate-2 style envelope with a passing valuation, used by witnesses. -/
def wG2pass : Envelope GateData :=
  runEnvelope gate2Name ⟨"OK",
    some { emptyGateData with
           pass := some true
           passes := some true
           valuation_band := some "FAIR" }, 85, []⟩

/-- Gate-3 style envelope with a NEUTRAL classification, used by witnesses. -/
def wG3neutral : Envelope GateData :=
  runEnvelope gate3Name ⟨"OK",
    some { emptyGateData with classification := some "NEUTRAL" }, 70, []⟩

/-- Gate-4 style envelope with UNDETERMINED risk, used by witnesses. -/
def wG4undet : Envelope GateData :=
  runEnvelope gate4Name ⟨"OK",
    some { emptyGateData with risk_level := some "UNDETERMINED" }, 60, []⟩

/-- Gate-5 style envelope, used by witnesses. -/
def wG5ok : Envelope GateData :=
  runEnvelope gate5Name ⟨"OK",
    some { emptyGateData with maximum_position_size := some 8 }, 75, []⟩

/-- Witness for C1: a passing valuation with UNDETERMINED impairment is
accepted and lands on WATCH through the precedence chain. -/
theorem gate6_verdict_precedence_witness :
    (gateDataOf wG3neutral).classification.isSome = true
    ∧ (gateDataOf wG4undet).risk_level.isSome = true
    ∧ ((gateDataOf wG2pass).pass ≠ none ∨ (gateDataOf wG2pass).passes ≠ none)
    ∧ verdictOf (aggregate_verdict wG2pass wG3neutral wG4undet wG5ok none)
        = some (verdict_precedence
            ((gateDataOf wG2pass).pass.getD false
              || (gateDataOf wG2pass).passes.getD false)
            (str_to_upper ((gateDataOf wG4undet).risk_level.getD
              "UNDETERMINED")))
    ∧ verdict_precedence true "UNDETERMINED" = "WATCH" :=
  ⟨by decide, by decide, Or.inl (by decide),
   (gate6_verdict_precedence wG2pass wG3neutral wG4undet wG5ok none
     (by decide) (by decide) (Or.inl (by decide))).1,
   (gate6_verdict_precedence wG2pass wG3neutral wG4undet wG5ok none
     (by decide) (by decide) (Or.inl (by decide))).2.2.1⟩

/-- C8: two invocations of `aggregate_verdict` whose inputs differ only in the
gate-3 (market-structure) envelope produce the same verdict field — the
classification never participates in the precedence chain. -/
theorem gate6_market_nonbinding
    (g2 g4 g5 g3 g3' : Envelope GateData) (g1 : Option GateData)
    (h3 : (gateDataOf g3).classification.isSome = true)
    (h3' : (gateDataOf g3').classification.isSome = true) :
    verdictOf (aggregate_verdict g2 g3 g4 g5 g1)
      = verdictOf (aggregate_verdict g2 g3' g4 g5 g1) := by
  by_cases h4 : (gateDataOf g4).risk_level.isSome = true
  · by_cases h2 : (gateDataOf g2).pass ≠ none ∨ (gateDataOf g2).passes ≠ none
    · rw [aggregate_verdict_ok g2 g3 g4 g5 g1 h3 h4 h2,
        aggregate_verdict_ok g2 g3' g4 g5 g1 h3' h4 h2]
      simp only [verdictOf, ok_response, Option.map_some']
      rw [verdictDataCalc_verdict, verdictDataCalc_verdict]
    · push_neg at h2
      have h2' : (gateDataOf g2).pass = none ∧ (gateDataOf g2).passes = none :=
        ⟨h2.1, h2.2⟩
      rw [verdictOf, verdictOf,
        aggregate_verdict_data_none g2 g3 g4 g5 g1 (Or.inr h2'),
        aggregate_verdict_data_none g2 g3' g4 g5 g1 (Or.inr h2')]
  · have h4' : (gateDataOf g4).risk_level = none :=
      Option.not_isSome_iff_eq_none.mp (by simpa using h4)
    rw [verdictOf, verdictOf,
      aggregate_verdict_data_none g2 g3 g4 g5 g1 (Or.inl h4'),
      aggregate_verdict_data_none g2 g3' g4 g5 g1 (Or.inl h4')]

/-- Gate-3 style envelope with a HEADWIND classification, used by witnesses. -/
def wG3headwind : Envelope GateData :=
  runEnvelope gate3Name ⟨"OK",
    some { emptyGateData with classification := some "HEADWIND" }, 70, []⟩

/-- Witness for C8: flipping the market structure from NEUTRAL to HEADWIND
leaves the verdict unchanged. -/
theorem gate6_market_nonbinding_witness :
    (gateDataOf wG3neutral).classification.isSome = true
    ∧ (gateDataOf wG3headwind).classification.isSome = true
    ∧ verdictOf (aggregate_verdict wG2pass wG3neutral wG4undet wG5ok none)
        = verdictOf (aggregate_verdict wG2pass wG3headwind wG4undet wG5ok
            none) :=
  ⟨by decide, by decide,
   gate6_market_nonbinding wG2pass wG4undet wG5ok wG3neutral wG3headwind none
     (by decide) (by decide)⟩

/-- C10: the verdict gate derives the valuation-pass signal as the truthy OR
of the `pass` and `passes` fields (so `pass = false` with `passes = true`
counts as passing and does not suppress sizing), its missing-input ERROR for
the valuation signal fires exactly when both fields are null, and the
REJECT-on-valuation branch is taken (on accepted inputs) exactly when both
fields are falsy. -/
theorem gate6_valuation_pass_truthy
    (g2 g3 g4 g5 : Envelope GateData) (g1 : Option GateData) :
    (("gate2_output.pass"
        ∈ (aggregate_verdict g2 g3 g4 g5 g1).diagnostics.missing_inputs) ↔
      ((gateDataOf g2).pass = none ∧ (gateDataOf g2).passes = none))
    ∧ should_suppress_sizing g2 g4
        = !((gateDataOf g2).pass.getD false || (gateDataOf g2).passes.getD false)
    ∧ ((gateDataOf g3).classification.isSome = true →
        (gateDataOf g4).risk_level.isSome = true →
        ((gateDataOf g2).pass ≠ none ∨ (gateDataOf g2).passes ≠ none) →
        ((aggregate_verdict g2 g3 g4 g5 g1).data.map VerdictData.setup_label
            = some "Valuation discipline breached"
          ↔ ((gateDataOf g2).pass.getD false
              || (gateDataOf g2).passes.getD false) = false)) := by
  refine ⟨?_, rfl, ?_⟩
  · by_cases hpp : (gateDataOf g2).pass = none ∧ (gateDataOf g2).passes = none
    · simp only [gateDataOf] at hpp
      cases hcls : (g3.data.getD emptyGateData).classification <;>
        cases hrl : (g4.data.getD emptyGateData).risk_level <;>
        · simp [aggregate_verdict, extract_gate_parts, gateDataOf,
            missing_required_fields, error_response, hpp, hcls, hrl]
    · have hpp' : ¬((g2.data.getD emptyGateData).pass = none
          ∧ (g2.data.getD emptyGateData).passes = none) := by
        simpa [gateDataOf] using hpp
      simp only [gateDataOf] at hpp
      cases hcls : (g3.data.getD emptyGateData).classification <;>
        cases hrl : (g4.data.getD emptyGateData).risk_level <;>
        · simp [aggregate_verdict, extract_gate_parts, gateDataOf,
            missing_required_fields, error_response, ok_response, hpp, hpp',
            hcls, hrl]
  · intro h3 h4 h2
    rw [aggregate_verdict_ok g2 g3 g4 g5 g1 h3 h4 h2]
    simp only [ok_response, Option.map_some', verdictDataCalc]
    cases hb : (gateDataOf g2).pass.getD false
        || (gateDataOf g2).passes.getD false <;>
      simp only [hb, Bool.not_false, Bool.not_true, Bool.false_eq_true,
        Bool.true_eq_false, if_true, if_false, ite_true, ite_false]
    split_ifs <;> decide

/-- Gate-2 style envelope with `pass = false` but `passes = true`, used by
witnesses. -/
def wG2passesOnly : Envelope GateData :=
  runEnvelope gate2Name ⟨"OK",
    some { emptyGateData with
           pass := some false
           passes := some true
           valuation_band := some "FAIR" }, 85, []⟩

/-- Gate-4 style envelope with LOW risk, used by witnesses. -/
def wG4low : Envelope GateData :=
  runEnvelope gate4Name ⟨"OK",
    some { emptyGateData with risk_level := some "LOW" }, 80, []⟩

/-- Witness for C10: with `pass = false` and `passes = true` the valuation
counts as passing — no missing-input error for the valuation signal, no
sizing suppression, and the REJECT-on-valuation label is not produced. -/
theorem gate6_valuation_pass_truthy_witness :
    ¬("gate2_output.pass"
        ∈ (aggregate_verdict wG2passesOnly wG3neutral wG4low wG5ok
            none).diagnostics.missing_inputs)
    ∧ should_suppress_sizing wG2passesOnly wG4low
        = !((gateDataOf wG2passesOnly).pass.getD false
            || (gateDataOf wG2passesOnly).passes.getD false)
    ∧ ((aggregate_verdict wG2passesOnly wG3neutral wG4low wG5ok none).data.map
          VerdictData.setup_label = some "Valuation discipline breached"
        ↔ ((gateDataOf wG2passesOnly).pass.getD false
            || (gateDataOf wG2passesOnly).passes.getD false) = false) :=
  ⟨fun hmem =>
    absurd ((gate6_valuation_pass_truthy wG2passesOnly wG3neutral wG4low wG5ok
      none).1.mp hmem).1 (by decide),
   (gate6_valuation_pass_truthy wG2passesOnly wG3neutral wG4low wG5ok none).2.1,
   (gate6_valuation_pass_truthy wG2passesOnly wG3neutral wG4low wG5ok
     none).2.2 (by decide) (by decide) (Or.inr (by decide))⟩

/-- In a run's collected envelope list, the "gate 2" lookup of
`compute_pipeline_confidence` finds exactly the gate-2 envelope's data. -/
theorem find_gate_data_run_gate2 (run : PipelineRun) :
    find_gate_data (gateResults run) "gate 2"
      = run.gate2.data.getD emptyGateData := by
  have s0 : str_starts_with "gate 2" (str_to_lower gate0Name) = false := by
    decide
  have s1 : str_starts_with "gate 2" (str_to_lower gate1Name) = false := by
    decide
  have s2 : str_starts_with "gate 2" (str_to_lower gate2Name) = true := by
    decide
  cases hg : run.gate1 <;>
    simp [gateResults, find_gate_data, runEnvelope, List.find?, hg, s0, s1, s2]

/-- In a run's collected envelope list, the "gate 3" lookup finds exactly the
gate-3 envelope's data. -/
theorem find_gate_data_run_gate3 (run : PipelineRun) :
    find_gate_data (gateResults run) "gate 3"
      = run.gate3.data.getD emptyGateData := by
  have s0 : str_starts_with "gate 3" (str_to_lower gate0Name) = false := by
    decide
  have s1 : str_starts_with "gate 3" (str_to_lower gate1Name) = false := by
    decide
  have s2 : str_starts_with "gate 3" (str_to_lower gate2Name) = false := by
    decide
  have s3 : str_starts_with "gate 3" (str_to_lower gate3Name) = true := by
    decide
  cases hg : run.gate1 <;>
    simp [gateResults, find_gate_data, runEnvelope, List.find?, hg, s0, s1, s2,
      s3]

/-- In a run's collected envelope list, the "gate 4" lookup finds exactly the
gate-4 envelope's data. -/
theorem find_gate_data_run_gate4 (run : PipelineRun) :
    find_gate_data (gateResults run) "gate 4"
      = run.gate4.data.getD emptyGateData := by
  have s0 : str_starts_with "gate 4" (str_to_lower gate0Name) = false := by
    decide
  have s1 : str_starts_with "gate 4" (str_to_lower gate1Name) = false := by
    decide
  have s2 : str_starts_with "gate 4" (str_to_lower gate2Name) = false := by
    decide
  have s3 : str_starts_with "gate 4" (str_to_lower gate3Name) = false := by
    decide
  have s4 : str_starts_with "gate 4" (str_to_lower gate4Name) = true := by
    decide
  cases hg : run.gate1 <;>
    simp [gateResults, find_gate_data, runEnvelope, List.find?, hg, s0, s1, s2,
      s3, s4]

/-- C9 (amended): on every completed run whose identity and business-context
envelopes report no missing inputs, and whose final verdict is accepted, the
pipeline-level confidence equals the verdict gate's confidence — the two
implement the same additive scoring rule, differing only in the scope of the
missing-data penalty (pipeline: every collected envelope; verdict gate:
gates 2–5 only). -/
theorem pipeline_confidence_consistency (run : PipelineRun)
    (hid : run.identity.missing_inputs = [])
    (hg1 : ∀ c, run.gate1 = some c → c.missing_inputs = [])
    (h3 : ((run.gate3.data.getD emptyGateData).classification).isSome = true)
    (h4 : ((run.gate4.data.getD emptyGateData).risk_level).isSome = true)
    (h2 : (run.gate2.data.getD emptyGateData).pass ≠ none
      ∨ (run.gate2.data.getD emptyGateData).passes ≠ none) :
    compute_pipeline_confidence (gateResults run)
      = (finalVerdict run).confidence := by
  obtain ⟨c3, hc3⟩ := Option.isSome_iff_exists.mp h3
  obtain ⟨r4, hr4⟩ := Option.isSome_iff_exists.mp h4
  have hfin : finalVerdict run
      = ok_response gate6Name
          (verdictDataCalc (runEnvelope gate2Name run.gate2)
            (runEnvelope gate3Name run.gate3)
            (runEnvelope gate4Name run.gate4)
            (runEnvelope gate5Name run.gate5))
          gate6InputsUsed
          (verdictDataCalc (runEnvelope gate2Name run.gate2)
            (runEnvelope gate3Name run.gate3)
            (runEnvelope gate4Name run.gate4)
            (runEnvelope gate5Name run.gate5)).confidence
          ((verdictDataCalc (runEnvelope gate2Name run.gate2)
            (runEnvelope gate3Name run.gate3)
            (runEnvelope gate4Name run.gate4)
            (runEnvelope gate5Name run.gate5)).verdict ++ " — "
            ++ (verdictDataCalc (runEnvelope gate2Name run.gate2)
              (runEnvelope gate3Name run.gate3)
              (runEnvelope gate4Name run.gate4)
              (runEnvelope gate5Name run.gate5)).setup_label) none [] :=
    aggregate_verdict_ok _ _ _ _ _ h3 h4 h2
  have hne : (gateResults run).isEmpty = false := by
    cases hg : run.gate1 <;> simp [gateResults, hg]
  have hfd : (verdictEnvelopeAsGateResult
      (finalVerdict run)).diagnostics.missing_inputs = [] := by
    rw [hfin]
    rfl
  have hkd : (gateResults run).any
        (fun result => !result.diagnostics.missing_inputs.isEmpty)
      = ((!run.gate2.missing_inputs.isEmpty)
          || ((!run.gate3.missing_inputs.isEmpty)
          || ((!run.gate4.missing_inputs.isEmpty)
          || (!run.gate5.missing_inputs.isEmpty)))) := by
    cases hg : run.gate1 with
    | none =>
      simp [gateResults, runEnvelope, hg, hid, hfd]
    | some c =>
      simp [gateResults, runEnvelope, hg, hid, hg1 c hg, hfd]
  have hcl : ∀ z : ℤ, max 0 (min 100 (max 0 (min 100 z))) = max 0 (min 100 z) := by
    intro z
    omega
  rw [hfin]
  simp only [compute_pipeline_confidence, hne, Bool.false_eq_true, if_false,
    ite_false, find_gate_data_run_gate2, find_gate_data_run_gate3,
    find_gate_data_run_gate4, hkd, ok_response, verdictDataCalc,
    deterministic_confidence, gateDataOf, runEnvelope, extract_gate_parts,
    hc3, hr4, Option.getD_some, List.any_cons, List.any_nil, Bool.or_false]
  rw [hcl]

/-- A completed run whose business-context envelope is PARTIAL with a missing
input (`risk_factors`), while gates 2–5 report none — exactly what gate 1
produces when one 10-K section is unavailable. -/
def runPartialGate1 : PipelineRun :=
  { identity := ⟨"OK", some emptyGateData, 100, []⟩,
    gate1 := some ⟨"PARTIAL", some emptyGateData, 40, ["risk_factors"]⟩,
    gate2 := ⟨"OK",
      some { emptyGateData with
             pass := some true
             passes := some true
             valuation_band := some "FAIR" }, 85, []⟩,
    gate3 := ⟨"OK",
      some { emptyGateData with classification := some "NEUTRAL" }, 70, []⟩,
    gate4 := ⟨"OK",
      some { emptyGateData with risk_level := some "LOW" }, 80, []⟩,
    gate5 := ⟨"OK",
      some { emptyGateData with maximum_position_size := some 8 }, 75, []⟩ }

/-- C9 counterexample: on `runPartialGate1` the same upstream valuation,
market-structure, impairment and sizing envelopes feed both computations, yet
the pipeline confidence is 50 (the business-context envelope's missing input
triggers its −10) while the verdict gate's confidence is 60 (it only checks
the gate 2–5 diagnostics). -/
theorem pipeline_confidence_mismatch :
    compute_pipeline_confidence (gateResults runPartialGate1) = 50
    ∧ (finalVerdict runPartialGate1).confidence = 60
    ∧ compute_pipeline_confidence (gateResults runPartialGate1)
        ≠ (finalVerdict runPartialGate1).confidence := by
  decide

/-- A completed run with no missing inputs anywhere. -/
def runNoMissing : PipelineRun :=
  { identity := ⟨"OK", some emptyGateData, 100, []⟩,
    gate1 := some ⟨"OK", some emptyGateData, 85, []⟩,
    gate2 := ⟨"OK",
      some { emptyGateData with
             pass := some true
             passes := some true
             valuation_band := some "FAIR" }, 85, []⟩,
    gate3 := ⟨"OK",
      some { emptyGateData with classification := some "NEUTRAL" }, 70, []⟩,
    gate4 := ⟨"OK",
      some { emptyGateData with risk_level := some "LOW" }, 80, []⟩,
    gate5 := ⟨"OK",
      some { emptyGateData with maximum_position_size := some 8 }, 75, []⟩ }

/-- Witness for the amended C9: on a run with no missing inputs anywhere the
two confidence computations agree. -/
theorem pipeline_confidence_consistency_witness :
    runNoMissing.identity.missing_inputs = []
    ∧ ((runNoMissing.gate3.data.getD
        emptyGateData).classification).isSome = true
    ∧ ((runNoMissing.gate4.data.getD emptyGateData).risk_level).isSome = true
    ∧ compute_pipeline_confidence (gateResults runNoMissing)
        = (finalVerdict runNoMissing).confidence :=
  ⟨rfl, by decide, by decide,
   pipeline_confidence_consistency runNoMissing rfl
     (fun c hc => by cases hc; rfl) (by decide) (by decide)
     (Or.inl (by decide))⟩

end Mizan
